import Mathlib

/-!
Verification of the IT8951 e-paper driver (src/IT8951/interface.py).

The development shallowly embeds the driver: PIL images become an explicit
grid type `Img`, the SPI transport becomes a trace of `BusEvent`s threaded
through a state-and-error monad `EpdM`, and every method of the `EPD` class
that the claims touch is translated statement by statement.  Floats in the
VCOM path are modelled as exact rationals; Python `int()` truncation is
`pyInt`.  The constants module of the repository is not part of the sources,
so the numeric values of commands, registers and enum members are modelled
from the spec; no claim depends on the particular values, only on their
distinctness.
-/

/-! ## Images (the PIL operations the driver uses) -/

/-- A grayscale image: `width * height` samples in row-major order,
mirroring a PIL `L`-mode image. -/
structure Img where
  width : Nat
  height : Nat
  data : List Nat
deriving DecidableEq

/-- Pixel access; outside the image the value is 0 (PIL pads crops with 0). -/
def Img.pixel (a : Img) (x y : Nat) : Nat :=
  if x < a.width ∧ y < a.height then a.data.getD (y * a.width + x) 0 else 0

/-- `ImageChops.difference`: pixelwise absolute difference. -/
def imgDifference (a b : Img) : Img :=
  ⟨a.width, a.height, List.zipWith (fun x y => max x y - min x y) a.data b.data⟩

/-- `ImageChops.add` with default scale and offset: pixelwise saturating
addition capped at 255. -/
def imgAdd (a b : Img) : Img :=
  ⟨a.width, a.height, List.zipWith (fun x y => min 255 (x + y)) a.data b.data⟩

/-- `Image.paste(value, box)` with a constant color: every pixel inside the
box becomes `v`, pixels outside keep their value. -/
def imgPaste (a : Img) (v : Nat) (box : Nat × Nat × Nat × Nat) : Img :=
  ⟨a.width, a.height,
    (List.range a.height).flatMap (fun y => (List.range a.width).map (fun x =>
      if box.1 ≤ x ∧ x < box.2.2.1 ∧ box.2.1 ≤ y ∧ y < box.2.2.2 then v
      else a.pixel x y))⟩

/-- `Image.point(f)`: apply `f` to every sample. -/
def Img.point (a : Img) (f : Nat → Nat) : Img :=
  ⟨a.width, a.height, a.data.map f⟩

/-- `Image.crop(box)`, box given as (left, upper, right, lower) with the
right and lower bounds exclusive; out-of-range pixels read as 0. -/
def Img.crop (a : Img) (box : Nat × Nat × Nat × Nat) : Img :=
  ⟨box.2.2.1 - box.1, box.2.2.2 - box.2.1,
    (List.range (box.2.2.2 - box.2.1)).flatMap (fun y =>
      (List.range (box.2.2.1 - box.1)).map (fun x =>
        a.pixel (box.1 + x) (box.2.1 + y)))⟩

/-- The coordinates of the nonzero pixels, row-major. -/
def Img.nonzeroCoords (a : Img) : List (Nat × Nat) :=
  (List.range a.height).flatMap (fun y =>
    (List.range a.width).filterMap (fun x =>
      if a.pixel x y ≠ 0 then some (x, y) else none))

/-- `Image.getbbox()`: the smallest box (left, upper, right, lower), right
and lower exclusive, containing every nonzero pixel; `none` when the image
is all zero. -/
def Img.getbbox (a : Img) : Option (Nat × Nat × Nat × Nat) :=
  match a.nonzeroCoords with
  | [] => none
  | c :: rest =>
    some (rest.foldl
      (fun acc p => (min acc.1 p.1, min acc.2.1 p.2, max acc.2.2.1 (p.1 + 1),
        max acc.2.2.2 (p.2 + 1)))
      (c.1, c.2, c.1 + 1, c.2 + 1))

/-! ## Constants

Modelled from the spec: the repository constants module is not among the
sources, so the spec section on the command set, register map and modes
fixes which names exist; the numeric values are representative and no claim
depends on them. -/

namespace Commands

/-- Modelled from the spec: system-run command opcode. -/
def SYS_RUN : Nat := 0x01

/-- Modelled from the spec: standby command opcode. -/
def STANDBY : Nat := 0x02

/-- Modelled from the spec: sleep command opcode. -/
def SLEEP : Nat := 0x03

/-- Modelled from the spec: register-read command opcode. -/
def REG_RD : Nat := 0x10

/-- Modelled from the spec: register-write command opcode. -/
def REG_WR : Nat := 0x11

/-- Modelled from the spec: burst-read-trigger command opcode. -/
def MEM_BST_RD_T : Nat := 0x12

/-- Modelled from the spec: burst-read-start command opcode. -/
def MEM_BST_RD_S : Nat := 0x13

/-- Modelled from the spec: burst-write command opcode. -/
def MEM_BST_WR : Nat := 0x14

/-- Modelled from the spec: burst-end command opcode. -/
def MEM_BST_END : Nat := 0x15

/-- Modelled from the spec: load-image (full frame) command opcode. -/
def LD_IMG : Nat := 0x20

/-- Modelled from the spec: load-image-area command opcode. -/
def LD_IMG_AREA : Nat := 0x21

/-- Modelled from the spec: load-image-end command opcode. -/
def LD_IMG_END : Nat := 0x22

/-- Modelled from the spec: display-area command opcode. -/
def DPY_AREA : Nat := 0x34

/-- Modelled from the spec: get-device-info command opcode. -/
def GET_DEV_INFO : Nat := 0x302

/-- Modelled from the spec: display-area-with-buffer command opcode. -/
def DPY_BUF_AREA : Nat := 0x37

/-- Modelled from the spec: VCOM get/set command opcode. -/
def VCOM : Nat := 0x39

end Commands

namespace Registers

/-- Modelled from the spec: packed-mode enable register. -/
def I80CPCR : Nat := 0x04

/-- Modelled from the spec: image-buffer base address register. -/
def LISAR : Nat := 0x208

/-- Modelled from the spec: display-busy status register, polled until 0. -/
def LUTAFSR : Nat := 0x1224

/-- Modelled from the spec: 1bpp-mode toggle register base. -/
def UP1SR : Nat := 0x1138

/-- Modelled from the spec: 1bpp background/foreground color table register. -/
def BGVR : Nat := 0x1250

end Registers

namespace DisplayModes

/-- Modelled from the spec: full clear/init redraw mode. -/
def INIT : Nat := 0

/-- Modelled from the spec: fast monochrome direct-update mode. -/
def DU : Nat := 1

/-- Modelled from the spec: a grayscale (multi-level) mode. -/
def GC16 : Nat := 2

end DisplayModes

namespace PixelModes

/-- Modelled from the spec: 2 bits per pixel wire format. -/
def M_2BPP : Nat := 0

/-- Modelled from the spec: 3 bits per pixel wire format. -/
def M_3BPP : Nat := 1

/-- Modelled from the spec: 4 bits per pixel wire format. -/
def M_4BPP : Nat := 2

/-- Modelled from the spec: 8 bits per pixel wire format. -/
def M_8BPP : Nat := 3

end PixelModes

namespace EndianTypes

/-- Modelled from the spec: little-endian transfer flag. -/
def LITTLE : Nat := 0

end EndianTypes

namespace Rotate

/-- Modelled from the spec: no-rotation flag. -/
def NONE : Nat := 0

end Rotate

/-! ## The pixel packer (`EPD._pack_pixels`) -/

/-- The grouping pattern of the numpy code in `_pack_pixels`: the output has
`buf.length / group` words, word `j` being produced from the samples at
indices `group * j + i`. -/
def packWith (group : Nat) (f : List Nat → Nat) (buf : List Nat) : List Nat :=
  (List.range (buf.length / group)).map (fun j => f ((buf.drop (group * j)).take group))

/-- `EPD._pack_pixels(buf, pixel_format)`: convert a byte-per-sample buffer
into packed 16-bit words.  The numpy conversion to `np.ubyte` is the map
`% 256`; each numpy loop `for i in range(k-1, -1, -1)` is a fold over the
indices in decreasing order. -/
def _pack_pixels (buf : List Nat) (pixel_format : Nat) : List Nat :=
  let buf := buf.map (· % 256)
  if pixel_format = PixelModes.M_8BPP then
    packWith 2 (fun g => ((0 ||| g.getD 1 0) <<< 8) ||| g.getD 0 0) buf
  else if pixel_format = PixelModes.M_2BPP then
    packWith 8 (fun g =>
      (List.range 8).reverse.foldl (fun w i => (w <<< 2) ||| (g.getD i 0 >>> 6)) 0) buf
  else if pixel_format = PixelModes.M_3BPP then
    packWith 4 (fun g =>
      (List.range 4).reverse.foldl (fun w i => (w <<< 4) ||| ((g.getD i 0 &&& 0xFE) >>> 4)) 0) buf
  else if pixel_format = PixelModes.M_4BPP then
    packWith 4 (fun g =>
      (List.range 4).reverse.foldl (fun w i => (w <<< 4) ||| (g.getD i 0 >>> 4)) 0) buf
  else []

/-- The lambda inside `packed_pixel_write` used when `flatten` is set:
convert all pixels to black or white, `0xFF if x > 0x80 else 0x00`. -/
def flatten_point (x : Nat) : Nat := if 0x80 < x then 0xFF else 0x00

/-- `EPD._compute_diff_box(diff, round_to)`: the bounding box of the nonzero
pixels of `diff`, with the bounds adjusted by the source lines
`minx -= minx % round_to` and `maxx += round_to - maxx % round_to`
(and the same for y). -/
def _compute_diff_box (diff : Img) (round_to : Nat) : Option (Nat × Nat × Nat × Nat) :=
  match diff.getbbox with
  | none => none
  | some (minx, miny, maxx, maxy) =>
    some (minx - minx % round_to, miny - miny % round_to,
      maxx + (round_to - maxx % round_to), maxy + (round_to - maxy % round_to))

/-! ## The transport and the driver state machine

The SPI transport (an external collaborator, spec section 6) is modelled as
a trace of events.  Reads draw their values from an environment oracle, and
an environment fault predicate says which primitive bus operation (by
global index) raises a bus error, so that transmit failures can be
injected. -/

/-- One primitive operation of the SPI collaborator. -/
inductive BusEvent where
  | write (preamble : Nat) (data : List Nat)
  | read (preamble : Nat) (n : Nat)
  | writePixels (words : List Nat)
deriving DecidableEq

/-- The environment: which primitive bus operation faults, and the value
the device returns for each successive word read. -/
structure Env where
  fault : Nat → Bool
  readVal : Nat → Nat

/-- The mutable state of the `EPD` object that the claims concern, plus the
immutable device info fields set at initialization. -/
structure EPDState where
  width : Nat
  height : Nat
  img_buf_address : Nat
  frame_buf : Img
  prev_frame : Option Img
  gray_changes : Img
deriving DecidableEq

/-- Full machine state: the driver object plus the transport trace. -/
structure St where
  epd : EPDState
  busOps : Nat
  readCount : Nat
  trace : List BusEvent
deriving DecidableEq

/-- The driver monad: state threading with Python-exception-style errors.
Errors keep the state reached so far, so a trace is visible on failure. -/
def EpdM (α : Type) : Type := Env → St → Except String α × St

/-- Monadic return. -/
def EpdM.pure {α : Type} (a : α) : EpdM α := fun _ s => (.ok a, s)

/-- Monadic bind: short-circuit on error, keeping the state. -/
def EpdM.bind {α β : Type} (m : EpdM α) (f : α → EpdM β) : EpdM β := fun env s =>
  match m env s with
  | (.ok a, s1) => f a env s1
  | (.error e, s1) => (.error e, s1)

instance : Monad EpdM where
  pure := EpdM.pure
  bind := EpdM.bind

/-- Raise a Python exception. -/
def EpdM.throw {α : Type} (e : String) : EpdM α := fun _ s => (.error e, s)

/-- Read the driver object state. -/
def getEpd : EpdM EPDState := fun _ s => (.ok s.epd, s)

/-- Mutate the driver object state. -/
def modifyEpd (f : EPDState → EPDState) : EpdM Unit :=
  fun _ s => (.ok (), { s with epd := f s.epd })

/-- `self.spi.write(preamble, ary)`. -/
def spiWrite (preamble : Nat) (data : List Nat) : EpdM Unit := fun env s =>
  if env.fault s.busOps then (.error "SPI bus error", s)
  else (.ok (), { s with busOps := s.busOps + 1, trace := s.trace ++ [.write preamble data] })

/-- `self.spi.read(preamble, n)`: returns `n` words from the read oracle. -/
def spiRead (preamble : Nat) (n : Nat) : EpdM (List Nat) := fun env s =>
  if env.fault s.busOps then (.error "SPI bus error", s)
  else (.ok ((List.range n).map (fun k => env.readVal (s.readCount + k))),
    { s with
      busOps := s.busOps + 1
      readCount := s.readCount + n
      trace := s.trace ++ [.read preamble n] })

/-- `self.spi.write_pixels(buf)`. -/
def spiWritePixels (words : List Nat) : EpdM Unit := fun env s =>
  if env.fault s.busOps then (.error "SPI bus error", s)
  else (.ok (), { s with busOps := s.busOps + 1, trace := s.trace ++ [.writePixels words] })

/-- `EPD.write_data(ary)`: a data-framed write (preamble 0x0000). -/
def write_data (ary : List Nat) : EpdM Unit := spiWrite 0x0000 ary

/-- `EPD.write_cmd(cmd, *args)`: a command-framed write of the opcode
(preamble 0x6000) followed by one data write per argument. -/
def write_cmd (cmd : Nat) (args : List Nat) : EpdM Unit := do
  spiWrite 0x6000 [cmd]
  args.forM (fun arg => write_data [arg])

/-- `EPD.read_data(n)`: a read-framed transfer of `n` words (preamble 0x1000). -/
def read_data (n : Nat) : EpdM (List Nat) := spiRead 0x1000 n

/-- `EPD.read_int()`: read a single 16-bit word. -/
def read_int : EpdM Nat := do
  let recv ← read_data 1
  EpdM.pure (recv.getD 0 0)

/-- `EPD.read_register(address)`. -/
def read_register (address : Nat) : EpdM Nat := do
  write_cmd Commands.REG_RD [address]
  read_int

/-- `EPD.write_register(address, val)`. -/
def write_register (address val : Nat) : EpdM Unit := do
  write_cmd Commands.REG_WR [address]
  write_data [val]

/-- `EPD.set_img_buf_base_addr(address)`: high half to `LISAR+2`, low half
to `LISAR`. -/
def set_img_buf_base_addr (address : Nat) : EpdM Unit := do
  write_register (Registers.LISAR + 2) (address >>> 16)
  write_register Registers.LISAR (address &&& 0xFFFF)

/-- `EPD.wait_display_ready()`: poll the busy register until it reads 0.
The Python loop is unbounded; the model adds fuel and reports a modelling
artifact when it runs out, which no claim exercises. -/
def wait_display_ready : Nat → EpdM Unit
  | 0 => EpdM.throw "model fuel exhausted in wait_display_ready"
  | fuel + 1 => do
    let v ← read_register Registers.LUTAFSR
    if v = 0 then EpdM.pure () else wait_display_ready fuel

/-- `EPD.load_img_start(endian_type, pixel_format, rotate_mode)`. -/
def load_img_start (endian_type pixel_format rotate_mode : Nat) : EpdM Unit :=
  write_cmd Commands.LD_IMG [(endian_type <<< 8) ||| (pixel_format <<< 4) ||| rotate_mode]

/-- `EPD.load_img_area_start(...)`: area-scoped image load. -/
def load_img_area_start (endian_type pixel_format rotate_mode : Nat)
    (xy dims : Nat × Nat) : EpdM Unit :=
  write_cmd Commands.LD_IMG_AREA
    [(endian_type <<< 8) ||| (pixel_format <<< 4) ||| rotate_mode, xy.1, xy.2, dims.1, dims.2]

/-- `EPD.load_img_end()`. -/
def load_img_end : EpdM Unit := write_cmd Commands.LD_IMG_END []

/-- `EPD.packed_pixel_write(endian_type, pixel_format, rotate_mode, xy,
dims, flatten)`: send the frame buffer (or a cropped region of it, pushed
through `flatten_point` when `flatten` is set) to the controller. -/
def packed_pixel_write (endian_type pixel_format rotate_mode : Nat)
    (xy dims : Option (Nat × Nat)) (flatten : Bool) : EpdM Unit := do
  let st ← getEpd
  set_img_buf_base_addr st.img_buf_address
  (match xy with
   | none => load_img_start endian_type pixel_format rotate_mode
   | some p => load_img_area_start endian_type pixel_format rotate_mode p (dims.getD (0, 0)))
  let buf :=
    match xy with
    | none => st.frame_buf.data
    | some p =>
      let d := dims.getD (0, 0)
      let pbuf := st.frame_buf.crop (p.1, p.2, p.1 + d.1, p.2 + d.2)
      let pbuf := if flatten then pbuf.point flatten_point else pbuf
      pbuf.data
  spiWritePixels (_pack_pixels buf pixel_format)
  load_img_end

/-- `EPD.display_area(xy, dims, display_mode)`. -/
def display_area (xy dims : Nat × Nat) (display_mode : Nat) : EpdM Unit :=
  write_cmd Commands.DPY_AREA [xy.1, xy.2, dims.1, dims.2, display_mode]

/-- `EPD.display_area_1bpp(...)`: reads `UP1SR+2` into `old_value`, but the
next source line uses the undefined name `old_val`, so evaluating the
argument of the register write raises a `NameError` before any write. -/
def display_area_1bpp (xy dims : Nat × Nat)
    (display_mode background_gray foreground_gray : Nat) : EpdM Unit := do
  let _old_value ← read_register (Registers.UP1SR + 2)
  EpdM.throw "NameError: name old_val is not defined"

/-- `EPD.write_full(mode)`: transmit the whole frame, display it, then
update the grayscale accumulator and the previous-frame snapshot.  When
`mode == DU` with no previous frame, `ImageChops.difference(None, ...)`
raises, which the model renders as an error. -/
def writeFull (fuel : Nat) (mode : Nat) : EpdM Unit := do
  wait_display_ready fuel
  packed_pixel_write EndianTypes.LITTLE PixelModes.M_4BPP Rotate.NONE none none false
  let st ← getEpd
  display_area (0, 0) (st.width, st.height) mode
  (if mode = DisplayModes.DU then
    match st.prev_frame with
    | none => EpdM.throw "AttributeError: ImageChops.difference of None"
    | some prev =>
      modifyEpd (fun e =>
        { e with gray_changes := imgAdd e.gray_changes (imgDifference prev e.frame_buf) })
  else
    modifyEpd (fun e =>
      { e with gray_changes :=
        imgPaste e.gray_changes 0x00 (0, 0, e.gray_changes.width, e.gray_changes.height) }))
  modifyEpd (fun e => { e with prev_frame := some e.frame_buf })

/-- `EPD.write_partial(mode)`: bootstrap through `write_full` when there is
no previous frame (the source has no early return there), then compute the
dirty box, update the accumulator and the previous frame, and transmit the
dirty region if any. -/
def writePartial (fuel : Nat) (mode : Nat) : EpdM Unit := do
  let st0 ← getEpd
  (if st0.prev_frame = none then writeFull fuel mode else EpdM.pure ())
  let st ← getEpd
  let diff_box ←
    if mode = DisplayModes.DU then
      match st.prev_frame with
      | none => EpdM.throw "AttributeError: ImageChops.difference of None"
      | some prev => do
        let diff := imgDifference prev st.frame_buf
        let db := _compute_diff_box diff 4
        modifyEpd (fun e => { e with gray_changes := imgAdd e.gray_changes diff })
        EpdM.pure db
    else
      match st.prev_frame with
      | none => EpdM.throw "AttributeError: ImageChops.difference of None"
      | some prev => do
        let diff := imgDifference prev st.frame_buf
        modifyEpd (fun e => { e with gray_changes := imgAdd e.gray_changes diff })
        let st1 ← getEpd
        let db := _compute_diff_box st1.gray_changes 4
        modifyEpd (fun e =>
          { e with gray_changes :=
            imgPaste e.gray_changes 0x00 (0, 0, e.gray_changes.width, e.gray_changes.height) })
        EpdM.pure db
  modifyEpd (fun e => { e with prev_frame := some e.frame_buf })
  match diff_box with
  | none => EpdM.pure ()
  | some (x0, y0, x1, y1) => do
    wait_display_ready fuel
    packed_pixel_write EndianTypes.LITTLE PixelModes.M_4BPP Rotate.NONE
      (some (x0, y0)) (some (x1 - x0, y1 - y0)) (mode = DisplayModes.DU)
    display_area (x0, y0) (x1 - x0, y1 - y0) mode

/-- Python `int()` on a rational: truncation toward zero. -/
def pyInt (q : ℚ) : ℤ := if 0 ≤ q then ⌊q⌋ else -⌊-q⌋

/-- `EPD._validate_vcom(vcom)` as a predicate: `-5 < vcom < 0`. -/
def validVcom (vcom : ℚ) : Prop := -5 < vcom ∧ vcom < 0

instance (vcom : ℚ) : Decidable (validVcom vcom) := by
  unfold validVcom
  infer_instance

/-- `EPD.set_vcom(vcom)`: validate, convert to millivolts with `int()`,
then send `VCOM 1 <magnitude>`.  Floats are modelled as exact rationals. -/
def set_vcom (vcom : ℚ) : EpdM Unit := do
  if ¬ validVcom vcom then
    EpdM.throw "ValueError: vcom must be between -5 and 0"
  else
    write_cmd Commands.VCOM [1, (pyInt (-1000 * vcom)).toNat]

/-- `EPD.get_vcom()`: send `VCOM 0`, read one word, negate and rescale. -/
def get_vcom : EpdM ℚ := do
  write_cmd Commands.VCOM [0]
  let vcom_int ← read_int
  EpdM.pure (-(vcom_int : ℚ) / 1000)

/-- Modelled from the spec: the claim words say the transmitted magnitude is
`round(-1000*vcom)`; this is Python rounding, half to even. -/
def pyRound (q : ℚ) : ℤ :=
  if q - ⌊q⌋ < 1/2 then ⌊q⌋
  else if 1/2 < q - ⌊q⌋ then ⌊q⌋ + 1
  else if ⌊q⌋ % 2 = 0 then ⌊q⌋ else ⌊q⌋ + 1

/-- The fault-free, always-ready environment: no bus faults, every read
returns 0. -/
def env0 : Env := ⟨fun _ => false, fun _ => 0⟩

instance {ε α : Type} [DecidableEq ε] [DecidableEq α] : DecidableEq (Except ε α) := fun x y =>
  match x, y with
  | .ok a, .ok b => if h : a = b then .isTrue (by rw [h]) else .isFalse (by simp [h])
  | .error e, .error f => if h : e = f then .isTrue (by rw [h]) else .isFalse (by simp [h])
  | .ok _, .error _ => .isFalse (by simp)
  | .error _, .ok _ => .isFalse (by simp)

/-! ## Run lemmas: symbolic execution of the monad -/

theorem run_bind {α β : Type} (m : EpdM α) (f : α → EpdM β) (env : Env) (s : St) :
    (m >>= f) env s =
      match m env s with
      | (.ok a, s1) => f a env s1
      | (.error e, s1) => (.error e, s1) := rfl

theorem run_pure {α : Type} (a : α) (env : Env) (s : St) :
    (Pure.pure (f := EpdM) a) env s = (.ok a, s) := rfl

theorem run_epdm_pure {α : Type} (a : α) (env : Env) (s : St) :
    (EpdM.pure a) env s = (.ok a, s) := rfl

theorem run_throw {α : Type} (e : String) (env : Env) (s : St) :
    (EpdM.throw (α := α) e) env s = (.error e, s) := rfl

theorem run_getEpd (env : Env) (s : St) : getEpd env s = (.ok s.epd, s) := rfl

theorem run_modifyEpd (f : EPDState → EPDState) (env : Env) (s : St) :
    modifyEpd f env s = (.ok (), { s with epd := f s.epd }) := rfl

theorem run_ite {α : Type} (c : Prop) [Decidable c] (m1 m2 : EpdM α) (env : Env) (s : St) :
    (if c then m1 else m2) env s = if c then m1 env s else m2 env s := by
  split <;> rfl

/-- An environment with no bus faults and a given read oracle. -/
def noFaultEnv (rv : Nat → Nat) : Env := ⟨fun _ => false, rv⟩

theorem run_spiWrite_noFault (rv : Nat → Nat) (p : Nat) (d : List Nat) (s : St) :
    spiWrite p d (noFaultEnv rv) s =
      (.ok (), { s with busOps := s.busOps + 1, trace := s.trace ++ [.write p d] }) := rfl

theorem run_spiRead_noFault (rv : Nat → Nat) (p n : Nat) (s : St) :
    spiRead p n (noFaultEnv rv) s =
      (.ok ((List.range n).map (fun k => rv (s.readCount + k))),
        { s with
          busOps := s.busOps + 1
          readCount := s.readCount + n
          trace := s.trace ++ [.read p n] }) := rfl

theorem run_spiWritePixels_noFault (rv : Nat → Nat) (w : List Nat) (s : St) :
    spiWritePixels w (noFaultEnv rv) s =
      (.ok (), { s with busOps := s.busOps + 1, trace := s.trace ++ [.writePixels w] }) := rfl

theorem env0_eq : env0 = noFaultEnv (fun _ => 0) := rfl

theorem forM_nil {m : Type → Type} [Monad m] (f : Nat → m PUnit) :
    List.forM [] f = pure PUnit.unit := rfl

theorem forM_cons {m : Type → Type} [Monad m] (f : Nat → m PUnit) (a : Nat) (as : List Nat) :
    List.forM (a :: as) f = (f a >>= fun _ => as.forM f) := rfl

/-! ## Preservation combinators for fault analysis -/

/-- The computation never touches the driver object state. -/
def PreservesEpd {α : Type} (m : EpdM α) : Prop :=
  ∀ env s, ((m env s).2).epd = s.epd

/-- If the computation raises, the driver object state is what it was. -/
def ErrKeepsEpd {α : Type} (m : EpdM α) : Prop :=
  ∀ env s e s1, m env s = (.error e, s1) → s1.epd = s.epd

theorem PreservesEpd.errKeeps {α : Type} {m : EpdM α} (h : PreservesEpd m) :
    ErrKeepsEpd m := by
  intro env s e s1 he
  have := h env s
  rw [he] at this
  exact this

theorem preserves_bind {α β : Type} {m : EpdM α} {f : α → EpdM β}
    (hm : PreservesEpd m) (hf : ∀ a, PreservesEpd (f a)) : PreservesEpd (m >>= f) := by
  intro env s
  rw [run_bind]
  rcases hms : m env s with ⟨r, s1⟩
  have h1 : s1.epd = s.epd := by
    have := hm env s
    rw [hms] at this
    exact this
  cases r with
  | ok a =>
    have := hf a env s1
    simp only []
    rw [this, h1]
  | error e => exact h1

theorem preserves_spiWrite (p : Nat) (d : List Nat) : PreservesEpd (spiWrite p d) := by
  intro env s
  unfold spiWrite
  split <;> rfl

theorem preserves_spiRead (p n : Nat) : PreservesEpd (spiRead p n) := by
  intro env s
  unfold spiRead
  split <;> rfl

theorem preserves_spiWritePixels (w : List Nat) : PreservesEpd (spiWritePixels w) := by
  intro env s
  unfold spiWritePixels
  split <;> rfl

theorem preserves_pure {α : Type} (a : α) : PreservesEpd (Pure.pure (f := EpdM) a) := by
  intro env s
  rfl

theorem preserves_epdm_pure {α : Type} (a : α) : PreservesEpd (EpdM.pure a) := by
  intro env s
  rfl

theorem preserves_throw {α : Type} (e : String) : PreservesEpd (EpdM.throw (α := α) e) := by
  intro env s
  rfl

theorem preserves_getEpd : PreservesEpd getEpd := by
  intro env s
  rfl

theorem preserves_ite {α : Type} (c : Prop) [Decidable c] {m1 m2 : EpdM α}
    (h1 : PreservesEpd m1) (h2 : PreservesEpd m2) : PreservesEpd (if c then m1 else m2) := by
  intro env s
  by_cases hc : c
  · rw [if_pos hc]; exact h1 env s
  · rw [if_neg hc]; exact h2 env s

theorem preserves_forM (as : List Nat) (f : Nat → EpdM PUnit)
    (hf : ∀ a, PreservesEpd (f a)) : PreservesEpd (as.forM f) := by
  induction as with
  | nil => rw [forM_nil]; exact preserves_pure _
  | cons a as ih => rw [forM_cons]; exact preserves_bind (hf a) (fun _ => ih)

theorem preserves_write_data (ary : List Nat) : PreservesEpd (write_data ary) :=
  preserves_spiWrite _ _

theorem preserves_write_cmd (cmd : Nat) (args : List Nat) : PreservesEpd (write_cmd cmd args) := by
  unfold write_cmd
  exact preserves_bind (preserves_spiWrite _ _)
    (fun _ => preserves_forM _ _ (fun a => preserves_write_data [a]))

theorem preserves_read_data (n : Nat) : PreservesEpd (read_data n) :=
  preserves_spiRead _ _

theorem preserves_read_int : PreservesEpd read_int :=
  preserves_bind (preserves_read_data 1) (fun _ => preserves_epdm_pure _)

theorem preserves_read_register (a : Nat) : PreservesEpd (read_register a) :=
  preserves_bind (preserves_write_cmd _ _) (fun _ => preserves_read_int)

theorem preserves_write_register (a v : Nat) : PreservesEpd (write_register a v) :=
  preserves_bind (preserves_write_cmd _ _) (fun _ => preserves_write_data _)

theorem preserves_set_img_buf_base_addr (a : Nat) : PreservesEpd (set_img_buf_base_addr a) :=
  preserves_bind (preserves_write_register _ _) (fun _ => preserves_write_register _ _)

theorem preserves_wait_display_ready (fuel : Nat) : PreservesEpd (wait_display_ready fuel) := by
  induction fuel with
  | zero => exact preserves_throw _
  | succ n ih =>
    unfold wait_display_ready
    exact preserves_bind (preserves_read_register _)
      (fun v => preserves_ite _ (preserves_epdm_pure _) ih)

theorem preserves_load_img_start (a b c : Nat) : PreservesEpd (load_img_start a b c) :=
  preserves_write_cmd _ _

theorem preserves_load_img_area_start (a b c : Nat) (xy dims : Nat × Nat) :
    PreservesEpd (load_img_area_start a b c xy dims) :=
  preserves_write_cmd _ _

theorem preserves_load_img_end : PreservesEpd load_img_end :=
  preserves_write_cmd _ _

theorem preserves_packed_pixel_write (a b c : Nat) (xy dims : Option (Nat × Nat)) (fl : Bool) :
    PreservesEpd (packed_pixel_write a b c xy dims fl) := by
  unfold packed_pixel_write
  refine preserves_bind preserves_getEpd (fun st => ?_)
  refine preserves_bind (preserves_set_img_buf_base_addr _) (fun _ => ?_)
  refine preserves_bind ?_ (fun _ => ?_)
  · cases xy with
    | none => exact preserves_load_img_start _ _ _
    | some p => exact preserves_load_img_area_start _ _ _ _ _
  · exact preserves_bind (preserves_spiWritePixels _) (fun _ => preserves_load_img_end)

theorem preserves_display_area (xy dims : Nat × Nat) (m : Nat) :
    PreservesEpd (display_area xy dims m) :=
  preserves_write_cmd _ _

/-! ## Pure helper lemmas about images -/

theorem getD_zero_of_all_zero (l : List Nat) (h : ∀ v ∈ l, v = 0) (i : Nat) :
    l.getD i 0 = 0 := by
  induction l generalizing i with
  | nil => simp [List.getD]
  | cons a t ih =>
    cases i with
    | zero => simpa using h a (by simp)
    | succ j =>
      simp only [List.getD_cons_succ]
      exact ih (fun v hv => h v (by simp [hv])) j

theorem zipWith_absdiff_self (l : List Nat) :
    List.zipWith (fun x y => max x y - min x y) l l = l.map (fun _ => 0) := by
  induction l with
  | nil => rfl
  | cons a t ih => simp [ih]

theorem imgDifference_self_zero (a : Img) : ∀ v ∈ (imgDifference a a).data, v = 0 := by
  intro v hv
  simp only [imgDifference, zipWith_absdiff_self, List.mem_map] at hv
  obtain ⟨_, _, hx⟩ := hv
  exact hx.symm

theorem pixel_zero_of_all_zero (a : Img) (h : ∀ v ∈ a.data, v = 0) (x y : Nat) :
    a.pixel x y = 0 := by
  unfold Img.pixel
  split
  · exact getD_zero_of_all_zero a.data h _
  · rfl

theorem getbbox_eq_none (a : Img) (h : ∀ v ∈ a.data, v = 0) : a.getbbox = none := by
  have hco : a.nonzeroCoords = [] := by
    unfold Img.nonzeroCoords
    rw [List.flatMap_eq_nil_iff]
    intro y _
    rw [List.filterMap_eq_nil_iff]
    intro x _
    simp [pixel_zero_of_all_zero a h]
  unfold Img.getbbox
  rw [hco]

theorem zipWith_satadd_zero (l1 l2 : List Nat) (h1 : ∀ v ∈ l1, v = 0) (h2 : ∀ v ∈ l2, v = 0) :
    ∀ v ∈ List.zipWith (fun x y => min 255 (x + y)) l1 l2, v = 0 := by
  induction l1 generalizing l2 with
  | nil => simp
  | cons a t ih =>
    cases l2 with
    | nil => simp
    | cons b u =>
      intro v hv
      simp only [List.zipWith_cons_cons, List.mem_cons] at hv
      rcases hv with hv | hv
      · have ha : a = 0 := h1 a (by simp)
        have hb : b = 0 := h2 b (by simp)
        simp [hv, ha, hb]
      · exact ih u (fun w hw => h1 w (by simp [hw])) (fun w hw => h2 w (by simp [hw])) v hv

theorem imgAdd_zero_of_zero (a b : Img) (ha : ∀ v ∈ a.data, v = 0) (hb : ∀ v ∈ b.data, v = 0) :
    ∀ v ∈ (imgAdd a b).data, v = 0 := by
  intro v hv
  exact zipWith_satadd_zero a.data b.data ha hb v hv

theorem imgPaste_full_zero (a : Img) :
    ∀ v ∈ (imgPaste a 0 (0, 0, a.width, a.height)).data, v = 0 := by
  intro v hv
  simp only [imgPaste, List.mem_flatMap, List.mem_map, List.mem_range] at hv
  obtain ⟨y, hy, x, hx, hval⟩ := hv
  rw [if_pos ⟨Nat.zero_le x, hx, Nat.zero_le y, hy⟩] at hval
  exact hval.symm

theorem getD_le_zipWith_satadd (g : List Nat) (d : List Nat) (hlen : g.length = d.length)
    (h255 : ∀ v ∈ g, v ≤ 255) (i : Nat) :
    g.getD i 0 ≤ (List.zipWith (fun x y => min 255 (x + y)) g d).getD i 0 := by
  induction g generalizing d i with
  | nil => simp [List.getD]
  | cons a t ih =>
    cases d with
    | nil => simp at hlen
    | cons b u =>
      cases i with
      | zero =>
        have ha : a ≤ 255 := h255 a (by simp)
        simp only [List.zipWith_cons_cons, List.getD_cons_zero]
        omega
      | succ j =>
        simp only [List.zipWith_cons_cons, List.getD_cons_succ]
        exact ih u (by simpa using hlen) (fun v hv => h255 v (by simp [hv])) j

/-! ## Characterization of the update operations under a fault-free bus -/

/-- Running `writeFull` with the device ready and no bus faults succeeds and
performs exactly the state transition of source lines 327-334. -/
theorem writeFull_run_env0 (mode : Nat) (s : St) (prev : Img)
    (h : s.epd.prev_frame = some prev) :
    (writeFull 1 mode env0 s).1 = .ok () ∧
    ((writeFull 1 mode env0 s).2).epd =
      { s.epd with
        gray_changes :=
          if mode = DisplayModes.DU then
            imgAdd s.epd.gray_changes (imgDifference prev s.epd.frame_buf)
          else
            imgPaste s.epd.gray_changes 0 (0, 0, s.epd.gray_changes.width, s.epd.gray_changes.height)
        prev_frame := some s.epd.frame_buf } := by
  by_cases hm : mode = DisplayModes.DU <;>
    simp [writeFull, wait_display_ready, packed_pixel_write, set_img_buf_base_addr,
      write_register, read_register, write_cmd, write_data, read_data, read_int,
      load_img_start, load_img_end, display_area, env0_eq,
      run_bind, run_pure, run_epdm_pure, run_throw, run_getEpd, run_modifyEpd, run_ite,
      run_spiWrite_noFault, run_spiRead_noFault, run_spiWritePixels_noFault, forM_nil, forM_cons,
      h, hm]

/-- Running `writePartial` with a previous frame present, the device ready
and no bus faults succeeds and performs exactly the state transition of
source lines 368-384. -/
theorem writePartial_run_env0 (mode : Nat) (s : St) (prev : Img)
    (h : s.epd.prev_frame = some prev) :
    (writePartial 1 mode env0 s).1 = .ok () ∧
    ((writePartial 1 mode env0 s).2).epd =
      { s.epd with
        gray_changes :=
          if mode = DisplayModes.DU then
            imgAdd s.epd.gray_changes (imgDifference prev s.epd.frame_buf)
          else
            imgPaste (imgAdd s.epd.gray_changes (imgDifference prev s.epd.frame_buf)) 0
              (0, 0, (imgAdd s.epd.gray_changes (imgDifference prev s.epd.frame_buf)).width,
                (imgAdd s.epd.gray_changes (imgDifference prev s.epd.frame_buf)).height)
        prev_frame := some s.epd.frame_buf } := by
  by_cases hm : mode = DisplayModes.DU
  · rcases hdb : _compute_diff_box (imgDifference prev s.epd.frame_buf) 4 with _ | ⟨x0, y0, x1, y1⟩ <;>
      simp [writePartial, wait_display_ready, packed_pixel_write, set_img_buf_base_addr,
        write_register, read_register, write_cmd, write_data, read_data, read_int,
        load_img_start, load_img_area_start, load_img_end, display_area, env0_eq,
        run_bind, run_pure, run_epdm_pure, run_throw, run_getEpd, run_modifyEpd, run_ite,
        run_spiWrite_noFault, run_spiRead_noFault, run_spiWritePixels_noFault, forM_nil, forM_cons,
        h, hm, hdb]
  · rcases hdb : _compute_diff_box (imgAdd s.epd.gray_changes (imgDifference prev s.epd.frame_buf)) 4
        with _ | ⟨x0, y0, x1, y1⟩ <;>
      simp [writePartial, wait_display_ready, packed_pixel_write, set_img_buf_base_addr,
        write_register, read_register, write_cmd, write_data, read_data, read_int,
        load_img_start, load_img_area_start, load_img_end, display_area, env0_eq,
        run_bind, run_pure, run_epdm_pure, run_throw, run_getEpd, run_modifyEpd, run_ite,
        run_spiWrite_noFault, run_spiRead_noFault, run_spiWritePixels_noFault, forM_nil, forM_cons,
        h, hm, hdb]

/-- When the previous frame equals the frame buffer (and, for grayscale
modes, the accumulator is all zero), `writePartial` computes no dirty box
and returns without touching the bus: the trace is unchanged. -/
theorem writePartial_noop (mode : Nat) (s : St)
    (h : s.epd.prev_frame = some s.epd.frame_buf)
    (hz : mode ≠ DisplayModes.DU → ∀ v ∈ s.epd.gray_changes.data, v = 0) :
    writePartial 1 mode env0 s =
      (.ok (), { s with epd :=
        { s.epd with
          gray_changes :=
            if mode = DisplayModes.DU then
              imgAdd s.epd.gray_changes (imgDifference s.epd.frame_buf s.epd.frame_buf)
            else
              imgPaste (imgAdd s.epd.gray_changes (imgDifference s.epd.frame_buf s.epd.frame_buf)) 0
                (0, 0,
                  (imgAdd s.epd.gray_changes (imgDifference s.epd.frame_buf s.epd.frame_buf)).width,
                  (imgAdd s.epd.gray_changes (imgDifference s.epd.frame_buf s.epd.frame_buf)).height)
          prev_frame := some s.epd.frame_buf } }) := by
  by_cases hm : mode = DisplayModes.DU
  · have hdb : _compute_diff_box (imgDifference s.epd.frame_buf s.epd.frame_buf) 4 = none := by
      unfold _compute_diff_box
      rw [getbbox_eq_none _ (imgDifference_self_zero _)]
    simp [writePartial, env0_eq,
      run_bind, run_pure, run_epdm_pure, run_throw, run_getEpd, run_modifyEpd, run_ite,
      h, hm, hdb]
  · have hdb : _compute_diff_box
        (imgAdd s.epd.gray_changes (imgDifference s.epd.frame_buf s.epd.frame_buf)) 4 = none := by
      unfold _compute_diff_box
      rw [getbbox_eq_none _ (imgAdd_zero_of_zero _ _ (hz hm) (imgDifference_self_zero _))]
    simp [writePartial, env0_eq,
      run_bind, run_pure, run_epdm_pure, run_throw, run_getEpd, run_modifyEpd, run_ite,
      h, hm, hdb]

/-! ## Bit-level lemmas for the pixel packer -/

theorem lor_shiftLeft_eq_add (w x n : Nat) (h : x < 2 ^ n) :
    (w <<< n) ||| x = w * 2 ^ n + x := by
  have hh := Nat.mul_add_lt_is_or (i := n) h w
  rw [Nat.shiftLeft_eq, Nat.mul_comm w (2 ^ n)]
  exact hh.symm

set_option maxRecDepth 8192 in
theorem and254_shift_all : ∀ b < 256, (b &&& 254) >>> 4 = b >>> 4 := by decide

theorem getD_mem_or (l : List Nat) (i d : Nat) : l.getD i d ∈ l ∨ l.getD i d = d := by
  induction l generalizing i with
  | nil => right; simp [List.getD]
  | cons a t ih =>
    cases i with
    | zero => left; simp
    | succ j =>
      rcases ih j with h | h
      · left
        rw [List.getD_cons_succ]
        exact List.mem_cons_of_mem _ h
      · right
        rw [List.getD_cons_succ]
        exact h

theorem fold3_eq_fold4 (g : List Nat) (hg : ∀ v ∈ g, v < 256) :
    (List.range 4).reverse.foldl (fun w i => (w <<< 4) ||| ((g.getD i 0 &&& 0xFE) >>> 4)) 0 =
    (List.range 4).reverse.foldl (fun w i => (w <<< 4) ||| (g.getD i 0 >>> 4)) 0 := by
  have hb : ∀ i, (g.getD i 0 &&& 254) >>> 4 = g.getD i 0 >>> 4 := by
    intro i
    rcases getD_mem_or g i 0 with h | h
    · exact and254_shift_all _ (hg _ h)
    · rw [h]
      decide
  rw [show (List.range 4).reverse = [3, 2, 1, 0] from by decide]
  simp only [List.foldl_cons, List.foldl_nil, hb]

/-- The 3bpp path of `_pack_pixels` is bit-identical to the 4bpp path: the
`& 0xFE` clears only bit 0, which `>> 4` discards anyway. -/
theorem pack3_eq_pack4 (buf : List Nat) :
    _pack_pixels buf PixelModes.M_3BPP = _pack_pixels buf PixelModes.M_4BPP := by
  unfold _pack_pixels
  simp only [PixelModes.M_2BPP, PixelModes.M_3BPP, PixelModes.M_4BPP, PixelModes.M_8BPP]
  norm_num [-List.foldl_reverse, -List.getD_eq_getElem?_getD, packWith]
  intro j hj
  apply fold3_eq_fold4
  intro v hv
  have hm : v ∈ buf.map (· % 256) := List.mem_of_mem_drop (List.mem_of_mem_take hv)
  obtain ⟨w, hw, rfl⟩ := List.mem_map.mp hm
  exact Nat.mod_lt _ (by norm_num)

/-- A 4bpp group packs to one word holding the top nibble of byte 0 in the
lowest nibble up to the top nibble of byte 3 in the highest nibble. -/
theorem pack4_group_nibbles (b0 b1 b2 b3 : Nat) :
    _pack_pixels [b0, b1, b2, b3] PixelModes.M_4BPP =
      [(b3 % 256 / 16) * 4096 + (b2 % 256 / 16) * 256 + (b1 % 256 / 16) * 16 + b0 % 256 / 16] := by
  have key : _pack_pixels [b0, b1, b2, b3] PixelModes.M_4BPP =
      [((((0 <<< 4) ||| ((b3 % 256) >>> 4)) <<< 4 ||| ((b2 % 256) >>> 4)) <<< 4
        ||| ((b1 % 256) >>> 4)) <<< 4 ||| ((b0 % 256) >>> 4)] := by
    simp only [_pack_pixels, PixelModes.M_8BPP, PixelModes.M_2BPP, PixelModes.M_3BPP,
      PixelModes.M_4BPP, packWith, List.map_cons, List.map_nil, List.length_cons, List.length_nil]
    norm_num
    rw [show List.range 4 = [0, 1, 2, 3] from by decide, show List.range 1 = [0] from by decide]
    simp [List.getD]
  have e0 : (b0 % 256) >>> 4 = b0 % 256 / 16 := by rw [Nat.shiftRight_eq_div_pow]
  have e1 : (b1 % 256) >>> 4 = b1 % 256 / 16 := by rw [Nat.shiftRight_eq_div_pow]
  have e2 : (b2 % 256) >>> 4 = b2 % 256 / 16 := by rw [Nat.shiftRight_eq_div_pow]
  have e3 : (b3 % 256) >>> 4 = b3 % 256 / 16 := by rw [Nat.shiftRight_eq_div_pow]
  have h0 : (b0 % 256) >>> 4 < 2 ^ 4 := by rw [e0]; norm_num; omega
  have h1 : (b1 % 256) >>> 4 < 2 ^ 4 := by rw [e1]; norm_num; omega
  have h2 : (b2 % 256) >>> 4 < 2 ^ 4 := by rw [e2]; norm_num; omega
  rw [key, Nat.zero_shiftLeft, Nat.zero_or]
  rw [lor_shiftLeft_eq_add ((b3 % 256) >>> 4) ((b2 % 256) >>> 4) 4 h2]
  rw [lor_shiftLeft_eq_add _ ((b1 % 256) >>> 4) 4 h1]
  rw [lor_shiftLeft_eq_add _ ((b0 % 256) >>> 4) 4 h0]
  rw [e0, e1, e2, e3]
  norm_num
  ring

theorem and254_mod_div (b : Nat) : ((b % 256) &&& 254) >>> 4 = b % 256 / 16 := by
  rw [and254_shift_all _ (Nat.mod_lt _ (by norm_num)), Nat.shiftRight_eq_div_pow]

/-! ## Claim theorems -/

/-- C6: 4bpp packing processes samples in groups of 4, producing for
i = 3 down to 0 the word (word << 4) | (byte_i >> 4): each group of four
bytes yields one 16-bit word with byte0's top nibble in the lowest nibble
and byte3's top nibble in the highest nibble, and in particular the bytes
[0x00, 0xFF, 0x10, 0xEF] pack to the single word 0xE1F0. -/
theorem C6_pack_4bpp :
    (∀ b0 b1 b2 b3 : Nat, _pack_pixels [b0, b1, b2, b3] PixelModes.M_4BPP =
      [(b3 % 256 / 16) * 4096 + (b2 % 256 / 16) * 256 + (b1 % 256 / 16) * 16 + b0 % 256 / 16]) ∧
    _pack_pixels [0x00, 0xFF, 0x10, 0xEF] PixelModes.M_4BPP = [0xE1F0] ∧
    (0xE1F0 : Nat) = (0xE <<< 12) ||| (0x1 <<< 8) ||| (0xF <<< 4) ||| 0x0 :=
  ⟨pack4_group_nibbles, by decide, by decide⟩

/-- C7: 3bpp packing processes samples in groups of 4, producing for
i = 3 down to 0 the word (word << 4) | ((byte_i & 0xFE) >> 4): the result is
exactly this 4-bit-field encoding despite the name, and is bit-identical to
the 4bpp encoding on every input buffer. -/
theorem C7_pack_3bpp :
    (∀ b0 b1 b2 b3 : Nat, _pack_pixels [b0, b1, b2, b3] PixelModes.M_3BPP =
      [(((b3 % 256) &&& 0xFE) >>> 4) * 4096 + (((b2 % 256) &&& 0xFE) >>> 4) * 256
        + (((b1 % 256) &&& 0xFE) >>> 4) * 16 + (((b0 % 256) &&& 0xFE) >>> 4)]) ∧
    (∀ buf : List Nat, _pack_pixels buf PixelModes.M_3BPP = _pack_pixels buf PixelModes.M_4BPP) := by
  constructor
  · intro b0 b1 b2 b3
    rw [pack3_eq_pack4, pack4_group_nibbles]
    simp only [and254_mod_div]
  · exact pack3_eq_pack4

/-- C10: in a DU-mode partial update the binarization maps a sample to 0xFF
exactly when it is strictly greater than 0x80 and to 0x00 otherwise, so the
threshold value 0x80 itself becomes 0x00; the transmitted region of a DU
partial update is the packed image of the cropped frame pushed through this
function. -/
theorem C10_du_binarization :
    (∀ x : Nat, (0x80 < x → flatten_point x = 0xFF) ∧ (x ≤ 0x80 → flatten_point x = 0x00)) ∧
    flatten_point 0x80 = 0x00 ∧
    (∀ (s : St) (prev : Img) (x0 y0 x1 y1 : Nat),
      s.epd.prev_frame = some prev →
      _compute_diff_box (imgDifference prev s.epd.frame_buf) 4 = some (x0, y0, x1, y1) →
      BusEvent.writePixels (_pack_pixels
        (((s.epd.frame_buf.crop (x0, y0, x0 + (x1 - x0), y0 + (y1 - y0))).point flatten_point).data)
        PixelModes.M_4BPP) ∈ ((writePartial 1 DisplayModes.DU env0 s).2).trace) := by
  refine ⟨?_, by decide, ?_⟩
  · intro x
    constructor
    · intro h
      simp [flatten_point, h]
    · intro h
      simp [flatten_point]
      omega
  · intro s prev x0 y0 x1 y1 h hdb
    simp [writePartial, wait_display_ready, packed_pixel_write, set_img_buf_base_addr,
      write_register, read_register, write_cmd, write_data, read_data, read_int,
      load_img_start, load_img_area_start, load_img_end, display_area, env0_eq,
      run_bind, run_pure, run_epdm_pure, run_throw, run_getEpd, run_modifyEpd, run_ite,
      run_spiWrite_noFault, run_spiRead_noFault, run_spiWritePixels_noFault, forM_nil, forM_cons,
      h, hdb]

/-- A 4 by 4 all-black previous frame for the C10 witness. -/
def c10prev : Img := ⟨4, 4, List.replicate 16 0⟩

/-- A 4 by 4 frame of gray value 200 for the C10 witness. -/
def c10frame : Img := ⟨4, 4, List.replicate 16 200⟩

/-- A driver state with a pending change for the C10 witness. -/
def c10s : St := ⟨⟨4, 4, 0, c10frame, some c10prev, ⟨4, 4, List.replicate 16 0⟩⟩, 0, 0, []⟩

/-- Witness for C10 at concrete inputs. -/
theorem C10_witness :
    (0x80 < 200 ∧ flatten_point 200 = 0xFF) ∧ (0x7F ≤ 0x80 ∧ flatten_point 0x7F = 0x00) ∧
    BusEvent.writePixels (_pack_pixels
      (((c10s.epd.frame_buf.crop (0, 0, 0 + (8 - 0), 0 + (8 - 0))).point flatten_point).data)
      PixelModes.M_4BPP) ∈ ((writePartial 1 DisplayModes.DU env0 c10s).2).trace :=
  ⟨⟨by decide, (C10_du_binarization.1 200).1 (by decide)⟩,
   ⟨by decide, (C10_du_binarization.1 0x7F).2 (by decide)⟩,
   C10_du_binarization.2.2 c10s c10prev 0 0 8 8 rfl (by decide)⟩

/-- A 4 by 4 difference image whose bounding box (0, 0, 4, 4) is already
aligned to 4. -/
def c2diff : Img := ⟨4, 4, [1,0,0,0, 0,0,0,0, 0,0,0,0, 0,0,0,1]⟩

/-- C2 counterexample: on a raw box whose exclusive max bound 4 is already a
multiple of the alignment 4, the code moves it to 8, not the claimed
smallest multiple 4: an aligned max bound is not left unchanged. -/
theorem C2_counterexample :
    c2diff.getbbox = some (0, 0, 4, 4) ∧ (4 : Nat) % 4 = 0 ∧
    _compute_diff_box c2diff 4 = some (0, 0, 8, 8) ∧ (8 : Nat) ≠ 4 := by decide

theorem round_down_eq (x r : Nat) (hr : 0 < r) : x - x % r = r * (x / r) := by
  have h1 := Nat.div_add_mod x r
  omega

theorem round_up_eq (x r : Nat) (hr : 0 < r) : x + (r - x % r) = r * (x / r + 1) := by
  have h1 := Nat.div_add_mod x r
  have h2 : x % r < r := Nat.mod_lt x hr
  have h3 : r * (x / r + 1) = r * (x / r) + r := by ring
  omega

/-- C2 amended: the rounding step maps minX and minY down to the largest
multiple of the alignment not exceeding them (unchanged when already
aligned), but maps maxX and maxY to the smallest multiple of the alignment
strictly greater than them: the rounded box is an aligned superset of the
raw box, and a max bound that is already a multiple grows by a full
alignment. -/
theorem C2_rounding (diff : Img) (r minx miny maxx maxy : Nat) (hr : 0 < r)
    (hbb : diff.getbbox = some (minx, miny, maxx, maxy)) :
    _compute_diff_box diff r =
      some (minx - minx % r, miny - miny % r, maxx + (r - maxx % r), maxy + (r - maxy % r)) ∧
    (minx - minx % r) % r = 0 ∧ (miny - miny % r) % r = 0 ∧
    (maxx + (r - maxx % r)) % r = 0 ∧ (maxy + (r - maxy % r)) % r = 0 ∧
    minx - minx % r ≤ minx ∧ miny - miny % r ≤ miny ∧
    maxx < maxx + (r - maxx % r) ∧ maxy < maxy + (r - maxy % r) ∧
    (∀ m, m % r = 0 → m ≤ minx → m ≤ minx - minx % r) ∧
    (∀ m, m % r = 0 → maxx < m → maxx + (r - maxx % r) ≤ m) := by
  have hxm : maxx % r < r := Nat.mod_lt maxx hr
  have hym : maxy % r < r := Nat.mod_lt maxy hr
  refine ⟨?_, ?_, ?_, ?_, ?_, ?_, ?_, ?_, ?_, ?_, ?_⟩
  · unfold _compute_diff_box
    rw [hbb]
  · rw [round_down_eq _ _ hr]
    exact Nat.mul_mod_right r _
  · rw [round_down_eq _ _ hr]
    exact Nat.mul_mod_right r _
  · rw [round_up_eq _ _ hr]
    exact Nat.mul_mod_right r _
  · rw [round_up_eq _ _ hr]
    exact Nat.mul_mod_right r _
  · omega
  · omega
  · omega
  · omega
  · intro m hm hle
    have hmeq : m = r * (m / r) := by
      have := Nat.div_add_mod m r
      omega
    have hdiv : m / r ≤ minx / r := Nat.div_le_div_right hle
    have := Nat.mul_le_mul (Nat.le_refl r) hdiv
    rw [round_down_eq _ _ hr]
    omega
  · intro m hm hlt
    have hmeq : m = r * (m / r) := by
      have := Nat.div_add_mod m r
      omega
    have hq : maxx / r < m / r := by
      by_contra hc
      push_neg at hc
      have h3 : r * (m / r) ≤ r * (maxx / r) := Nat.mul_le_mul (Nat.le_refl r) hc
      have h4 := Nat.div_add_mod maxx r
      omega
    have h5 : r * (maxx / r + 1) ≤ r * (m / r) := Nat.mul_le_mul (Nat.le_refl r) hq
    rw [round_up_eq _ _ hr]
    omega

/-- Witness for C2 at a concrete diff image and alignment 4. -/
theorem C2_witness :
    (0 < 4 ∧ c2diff.getbbox = some (0, 0, 4, 4)) ∧
    _compute_diff_box c2diff 4 = some (0, 0, 8, 8) :=
  ⟨⟨by decide, by decide⟩,
    (C2_rounding c2diff 4 0 0 4 4 (by decide) (by decide)).1⟩

/-- C9: every call to display_area_1bpp raises a NameError (the source uses
the undefined name old_val) after reading register UP1SR+2 and before any
register write: the emitted bus events are exactly the register-read
command, its address argument and the one-word read, and contain no
register-write command and no display command. -/
theorem C9_display_area_1bpp_name_error :
    (∀ (rv : Nat → Nat) (xy dims : Nat × Nat) (mode bg fg : Nat) (s : St),
      display_area_1bpp xy dims mode bg fg (noFaultEnv rv) s =
        (.error "NameError: name old_val is not defined",
          { s with
            busOps := s.busOps + 3
            readCount := s.readCount + 1
            trace := s.trace ++ [.write 0x6000 [Commands.REG_RD], .write 0 [Registers.UP1SR + 2],
              .read 0x1000 1] })) ∧
    BusEvent.write 0x6000 [Commands.REG_WR] ∉
      ([.write 0x6000 [Commands.REG_RD], .write 0 [Registers.UP1SR + 2],
        .read 0x1000 1] : List BusEvent) ∧
    BusEvent.write 0x6000 [Commands.DPY_AREA] ∉
      ([.write 0x6000 [Commands.REG_RD], .write 0 [Registers.UP1SR + 2],
        .read 0x1000 1] : List BusEvent) := by
  refine ⟨?_, by decide, by decide⟩
  intro rv xy dims mode bg fg s
  simp [display_area_1bpp, read_register, write_cmd, write_data, read_data, read_int,
    run_bind, run_pure, run_epdm_pure, run_throw, run_getEpd, run_modifyEpd, run_ite,
    run_spiWrite_noFault, run_spiRead_noFault, run_spiWritePixels_noFault, forM_nil, forM_cons]

/-- An empty driver state for the VCOM claims. -/

def c8s : St := ⟨⟨0, 0, 0, ⟨0, 0, []⟩, none, ⟨0, 0, []⟩⟩, 0, 0, []⟩

/-- C8 counterexample: at vcom = -3/2000 (inside the open interval) the
code computes int(-1000*vcom), transmitting 1, while the claimed
round(-1000*vcom) (Python rounding, half to even) is 2. -/
theorem C8_counterexample :
    validVcom (-(3/2000)) ∧
    (set_vcom (-(3/2000) : ℚ) env0 c8s).2.trace =
      [.write 0x6000 [Commands.VCOM], .write 0 [1], .write 0 [1]] ∧
    pyRound (-1000 * (-(3/2000) : ℚ)) = 2 ∧ (1 : Nat) ≠ 2 := by
  have hv : validVcom (-(3/2000)) := by
    unfold validVcom
    norm_num
  have h32 : (-1000 : ℚ) * (-(3/2000)) = 3/2 := by norm_num
  have hf : ⌊(3/2 : ℚ)⌋ = 1 := by norm_num [Int.floor_eq_iff]
  have hpy : pyInt (-1000 * (-(3/2000) : ℚ)) = 1 := by
    rw [pyInt, h32, if_pos (by norm_num), hf]
  have h32b : (1000 : ℚ) * (3/2000) = 3/2 := by norm_num
  have hpy2 : (pyInt ((1000 : ℚ) * (3/2000))).toNat = 1 := by
    rw [pyInt, h32b, if_pos (by norm_num), hf]
    rfl
  refine ⟨hv, ?_, ?_, by decide⟩
  · simp [set_vcom, hv, hpy, write_cmd, write_data, env0_eq, c8s,
      run_bind, run_pure, run_epdm_pure, run_throw, run_ite,
      run_spiWrite_noFault, forM_nil, forM_cons, hpy2]
  · rw [pyRound, h32, hf]
    norm_num

/-- C8 amended: for every vcom in the open interval (-5, 0), set_vcom
transmits the magnitude in millivolts computed by truncation toward zero,
int(-1000*vcom), as an unsigned integer argument; any vcom outside the
interval raises the validation error before any bus event; setting -1.5
transmits 1500, and get_vcom decoding a device answer of 1500 returns
-1.5. -/
theorem C8_set_vcom (vcom : ℚ) (s : St) :
    (validVcom vcom →
      set_vcom vcom env0 s = (.ok (),
        { s with
          busOps := s.busOps + 3
          trace := s.trace ++ [.write 0x6000 [Commands.VCOM], .write 0 [1],
            .write 0 [(pyInt (-1000 * vcom)).toNat]] })) ∧
    (¬ validVcom vcom → set_vcom vcom env0 s =
      (.error "ValueError: vcom must be between -5 and 0", s)) ∧
    pyInt (-1000 * (-(3/2) : ℚ)) = 1500 ∧
    (get_vcom (noFaultEnv (fun _ => 1500)) s).1 = .ok (-(3/2)) := by
  refine ⟨?_, ?_, ?_, ?_⟩
  · intro hv
    simp [set_vcom, hv, write_cmd, write_data, env0_eq,
      run_bind, run_pure, run_epdm_pure, run_throw, run_ite,
      run_spiWrite_noFault, forM_nil, forM_cons]
  · intro hv
    simp [set_vcom, hv, env0_eq, run_bind, run_throw, run_ite]
  · have h : (-1000 : ℚ) * (-(3/2)) = 1500 := by norm_num
    rw [pyInt, h, if_pos (by norm_num)]
    norm_num
  · have key : (get_vcom (noFaultEnv (fun _ => 1500)) s).1 = .ok (-(1500 : ℚ) / 1000) := by
      simp [get_vcom, read_int, read_data, write_cmd, write_data,
        run_bind, run_pure, run_epdm_pure, run_throw, run_ite,
        run_spiWrite_noFault, run_spiRead_noFault, forM_nil, forM_cons]
    rw [key]
    norm_num

/-- Witness for C8 at vcom = -1.5. -/
theorem C8_witness :
    validVcom (-(3/2)) ∧
    (set_vcom (-(3/2) : ℚ) env0 c8s).2.trace =
      [.write 0x6000 [Commands.VCOM], .write 0 [1], .write 0 [1500]] := by
  have hv : validVcom (-(3/2)) := by
    unfold validVcom
    norm_num
  refine ⟨hv, ?_⟩
  have happ := (C8_set_vcom (-(3/2)) c8s).1 hv
  have h32b : (1000 : ℚ) * (3/2) = 1500 := by norm_num
  have h1500b : (pyInt ((1000 : ℚ) * (3/2))).toNat = 1500 := by
    rw [pyInt, h32b, if_pos (by norm_num)]
    norm_num
    rfl
  rw [happ]
  simp [c8s, h1500b]

/-- C5: with a previous frame present, calling writePartial twice with the
frame buffer unchanged between the calls transmits nothing on the second
call, for every mode: the second call succeeds, appends no bus event, and
its dirty box (the one the branch for the given mode computes) is none. -/
theorem C5_noop_idempotence (mode : Nat) (s : St) (prev : Img)
    (h : s.epd.prev_frame = some prev) :
    (writePartial 1 mode env0 (writePartial 1 mode env0 s).2).1 = .ok () ∧
    ((writePartial 1 mode env0 (writePartial 1 mode env0 s).2).2).trace =
      ((writePartial 1 mode env0 s).2).trace ∧
    (if mode = DisplayModes.DU then
      _compute_diff_box
        (imgDifference ((writePartial 1 mode env0 s).2).epd.frame_buf
          ((writePartial 1 mode env0 s).2).epd.frame_buf) 4
     else
      _compute_diff_box
        (imgAdd ((writePartial 1 mode env0 s).2).epd.gray_changes
          (imgDifference ((writePartial 1 mode env0 s).2).epd.frame_buf
            ((writePartial 1 mode env0 s).2).epd.frame_buf)) 4) = none := by
  obtain ⟨hok1, hepd1⟩ := writePartial_run_env0 mode s prev h
  have hpf : ((writePartial 1 mode env0 s).2).epd.prev_frame = some s.epd.frame_buf := by
    rw [hepd1]
  have hfb : ((writePartial 1 mode env0 s).2).epd.frame_buf = s.epd.frame_buf := by
    rw [hepd1]
  have hprev1 : ((writePartial 1 mode env0 s).2).epd.prev_frame =
      some ((writePartial 1 mode env0 s).2).epd.frame_buf := by
    rw [hpf, hfb]
  have hz : mode ≠ DisplayModes.DU →
      ∀ v ∈ ((writePartial 1 mode env0 s).2).epd.gray_changes.data, v = 0 := by
    intro hm v hv
    rw [hepd1] at hv
    simp only [if_neg hm] at hv
    exact imgPaste_full_zero _ v hv
  have hnoop := writePartial_noop mode ((writePartial 1 mode env0 s).2) hprev1 hz
  refine ⟨by rw [hnoop], by rw [hnoop], ?_⟩
  by_cases hm : mode = DisplayModes.DU
  · rw [if_pos hm]
    unfold _compute_diff_box
    rw [getbbox_eq_none _ (imgDifference_self_zero _)]
  · rw [if_neg hm]
    unfold _compute_diff_box
    rw [getbbox_eq_none _ (imgAdd_zero_of_zero _ _ (hz hm) (imgDifference_self_zero _))]

/-- A 4 by 4 all-white previous frame for the C5 witness. -/
def c5prev : Img := ⟨4, 4, List.replicate 16 255⟩

/-- A 4 by 4 frame with one changed pixel for the C5 witness. -/
def c5frame : Img := ⟨4, 4, List.replicate 15 255 ++ [0]⟩

/-- A driver state with a pending change for the C5 witness. -/
def c5s : St := ⟨⟨4, 4, 0, c5frame, some c5prev, ⟨4, 4, List.replicate 16 0⟩⟩, 0, 0, []⟩

/-- Witness for C5 at a concrete state and a grayscale mode. -/
theorem C5_witness :
    c5s.epd.prev_frame = some c5prev ∧
    (writePartial 1 DisplayModes.GC16 env0 (writePartial 1 DisplayModes.GC16 env0 c5s).2).1 =
      .ok () ∧
    ((writePartial 1 DisplayModes.GC16 env0
      (writePartial 1 DisplayModes.GC16 env0 c5s).2).2).trace =
      ((writePartial 1 DisplayModes.GC16 env0 c5s).2).trace :=
  ⟨rfl, (C5_noop_idempotence DisplayModes.GC16 c5s c5prev rfl).1,
    (C5_noop_idempotence DisplayModes.GC16 c5s c5prev rfl).2.1⟩

theorem zipWith_satadd_le_255 (l1 l2 : List Nat) (i : Nat) :
    (List.zipWith (fun x y => min 255 (x + y)) l1 l2).getD i 0 ≤ 255 := by
  induction l1 generalizing l2 i with
  | nil => simp [List.getD]
  | cons a t ih =>
    cases l2 with
    | nil => simp [List.getD]
    | cons b u =>
      cases i with
      | zero => simp
      | succ j =>
        simp only [List.zipWith_cons_cons, List.getD_cons_succ]
        exact ih u j

/-- C4: a DU-mode update (full or partial) sets GrayAccumulator to the
saturating pixelwise sum of the old accumulator and the absolute difference
of PreviousFrame and FrameBuffer, so every cell is non-decreasing and stays
capped at 255; a non-DU update (full or partial) leaves GrayAccumulator
exactly all-zero. -/
theorem C4_accumulator (mode : Nat) (s : St) (prev : Img)
    (h : s.epd.prev_frame = some prev)
    (h255 : ∀ v ∈ s.epd.gray_changes.data, v ≤ 255)
    (hlen : s.epd.gray_changes.data.length = (imgDifference prev s.epd.frame_buf).data.length) :
    (mode = DisplayModes.DU →
      ((writeFull 1 mode env0 s).2).epd.gray_changes =
        imgAdd s.epd.gray_changes (imgDifference prev s.epd.frame_buf) ∧
      ((writePartial 1 mode env0 s).2).epd.gray_changes =
        imgAdd s.epd.gray_changes (imgDifference prev s.epd.frame_buf) ∧
      (∀ i, s.epd.gray_changes.data.getD i 0 ≤
        (imgAdd s.epd.gray_changes (imgDifference prev s.epd.frame_buf)).data.getD i 0) ∧
      (∀ i, (imgAdd s.epd.gray_changes (imgDifference prev s.epd.frame_buf)).data.getD i 0 ≤ 255)) ∧
    (mode ≠ DisplayModes.DU →
      (∀ v ∈ ((writeFull 1 mode env0 s).2).epd.gray_changes.data, v = 0) ∧
      (∀ v ∈ ((writePartial 1 mode env0 s).2).epd.gray_changes.data, v = 0)) := by
  obtain ⟨hokF, hepdF⟩ := writeFull_run_env0 mode s prev h
  obtain ⟨hokP, hepdP⟩ := writePartial_run_env0 mode s prev h
  constructor
  · intro hm
    refine ⟨?_, ?_, ?_, ?_⟩
    · rw [hepdF]
      simp [if_pos hm]
    · rw [hepdP]
      simp [if_pos hm]
    · intro i
      exact getD_le_zipWith_satadd _ _ hlen h255 i
    · intro i
      exact zipWith_satadd_le_255 _ _ i
  · intro hm
    constructor
    · intro v hv
      rw [hepdF] at hv
      simp only [if_neg hm] at hv
      exact imgPaste_full_zero _ v hv
    · intro v hv
      rw [hepdP] at hv
      simp only [if_neg hm] at hv
      exact imgPaste_full_zero _ v hv

/-- A 4 by 4 all-white previous frame for the C4 witness. -/
def c4prev : Img := ⟨4, 4, List.replicate 16 255⟩

/-- A 4 by 4 frame with one changed pixel for the C4 witness. -/
def c4frame : Img := ⟨4, 4, List.replicate 15 255 ++ [0]⟩

/-- A driver state with a pending change for the C4 witness. -/
def c4s : St := ⟨⟨4, 4, 0, c4frame, some c4prev, ⟨4, 4, List.replicate 16 0⟩⟩, 0, 0, []⟩

/-- Witness for C4 at a concrete state in DU mode. -/
theorem C4_witness :
    c4s.epd.prev_frame = some c4prev ∧
    (∀ v ∈ c4s.epd.gray_changes.data, v ≤ 255) ∧
    c4s.epd.gray_changes.data.length = (imgDifference c4prev c4s.epd.frame_buf).data.length ∧
    ((writeFull 1 DisplayModes.DU env0 c4s).2).epd.gray_changes =
      imgAdd c4s.epd.gray_changes (imgDifference c4prev c4s.epd.frame_buf) :=
  ⟨rfl, by decide, by decide,
    ((C4_accumulator DisplayModes.DU c4s c4prev rfl (by decide) (by decide)).1 rfl).1⟩

/-- A freshly initialized driver state: no previous frame yet. -/
def c1s : St := ⟨⟨2, 2, 0, ⟨2, 2, [255, 255, 255, 255]⟩, none, ⟨2, 2, [0, 0, 0, 0]⟩⟩, 0, 0, []⟩

/-- C1: writePartial with PreviousFrame absent delegates to writeFull (the
two runs are identical), but in DU mode the delegation raises: writeFull
transmits the full frame and then evaluates ImageChops.difference with
PreviousFrame = None, which raises before PreviousFrame is advanced.  The
claim that the bootstrap finishes with no error for every mode fails at
mode = DU. -/
theorem C1_bootstrap_du_error :
    writePartial 1 DisplayModes.DU env0 c1s = writeFull 1 DisplayModes.DU env0 c1s ∧
    (writeFull 1 DisplayModes.DU env0 c1s).1 =
      .error "AttributeError: ImageChops.difference of None" ∧
    BusEvent.writePixels (_pack_pixels c1s.epd.frame_buf.data PixelModes.M_4BPP) ∈
      ((writeFull 1 DisplayModes.DU env0 c1s).2).trace ∧
    ((writeFull 1 DisplayModes.DU env0 c1s).2).epd.prev_frame = none := by
  refine ⟨?_, ?_, ?_, ?_⟩ <;>
    simp [writePartial, writeFull, wait_display_ready, packed_pixel_write, set_img_buf_base_addr,
      write_register, read_register, write_cmd, write_data, read_data, read_int,
      load_img_start, load_img_area_start, load_img_end, display_area, env0_eq, c1s,
      run_bind, run_pure, run_epdm_pure, run_throw, run_getEpd, run_modifyEpd, run_ite,
      run_spiWrite_noFault, run_spiRead_noFault, run_spiWritePixels_noFault, forM_nil, forM_cons]

theorem err_bind {α β : Type} {m : EpdM α} {f : α → EpdM β}
    (hm : PreservesEpd m) (hf : ∀ a, ErrKeepsEpd (f a)) : ErrKeepsEpd (m >>= f) := by
  intro env s e s1 h
  rw [run_bind] at h
  rcases hms : m env s with ⟨r, smid⟩
  rw [hms] at h
  have hmid : smid.epd = s.epd := by
    have := hm env s
    rw [hms] at this
    exact this
  cases r with
  | ok a =>
    simp only [] at h
    have := hf a env smid e s1 h
    rw [this, hmid]
  | error e2 =>
    simp only [] at h
    have hs : smid = s1 := congrArg Prod.snd h
    rw [← hs, hmid]

theorem err_throw_bind {β : Type} (str : String) (g : Unit → EpdM β) :
    ErrKeepsEpd ((EpdM.throw str : EpdM Unit) >>= g) := by
  intro env s e s1 h
  simp [run_bind, run_throw] at h
  rw [← h.2]

theorem err_modify_modify (g1 g2 : EPDState → EPDState) :
    ErrKeepsEpd (modifyEpd g1 >>= fun _ => modifyEpd g2) := by
  intro env s e s1 h
  simp [run_bind, run_modifyEpd] at h

theorem err_writeFull (fuel mode : Nat) : ErrKeepsEpd (writeFull fuel mode) := by
  unfold writeFull
  refine err_bind (preserves_wait_display_ready fuel) (fun _ => ?_)
  refine err_bind (preserves_packed_pixel_write _ _ _ _ _ _) (fun _ => ?_)
  refine err_bind preserves_getEpd (fun st => ?_)
  refine err_bind (preserves_display_area _ _ _) (fun _ => ?_)
  by_cases hm : mode = DisplayModes.DU
  · rw [if_pos hm]
    rcases hsp : st.prev_frame with _ | prev
    · exact err_throw_bind _ _
    · exact err_modify_modify _ _
  · rw [if_neg hm]
    exact err_modify_modify _ _

theorem writePartial_front (fuel mode : Nat) (env : Env) (s : St) (prev : Img)
    (h : s.epd.prev_frame = some prev) :
    writePartial fuel mode env s =
      (match (if mode = DisplayModes.DU then
          _compute_diff_box (imgDifference prev s.epd.frame_buf) 4
        else
          _compute_diff_box (imgAdd s.epd.gray_changes (imgDifference prev s.epd.frame_buf)) 4)
        with
      | none => (EpdM.pure () : EpdM Unit)
      | some (x0, y0, x1, y1) => (do
          wait_display_ready fuel
          packed_pixel_write EndianTypes.LITTLE PixelModes.M_4BPP Rotate.NONE
            (some (x0, y0)) (some (x1 - x0, y1 - y0)) (mode = DisplayModes.DU)
          display_area (x0, y0) (x1 - x0, y1 - y0) mode : EpdM Unit)) env
      { s with epd :=
        { s.epd with
          gray_changes := if mode = DisplayModes.DU then
              imgAdd s.epd.gray_changes (imgDifference prev s.epd.frame_buf)
            else
              imgPaste (imgAdd s.epd.gray_changes (imgDifference prev s.epd.frame_buf)) 0
                (0, 0, (imgAdd s.epd.gray_changes (imgDifference prev s.epd.frame_buf)).width,
                  (imgAdd s.epd.gray_changes (imgDifference prev s.epd.frame_buf)).height)
          prev_frame := some s.epd.frame_buf } } := by
  by_cases hm : mode = DisplayModes.DU <;>
    simp [writePartial, run_bind, run_pure, run_epdm_pure, run_throw, run_getEpd, run_modifyEpd,
      run_ite, h, hm]

/-- C3 amended: writeFull transmits before touching driver state, so a
transmit failure there leaves PreviousFrame and GrayAccumulator unchanged;
writePartial however updates PreviousFrame (and the accumulator) before any
transmission, so after a transmit failure PreviousFrame already equals the
frame buffer: a retried update diffs against the new frame, not the last
known-good state. -/
theorem C3_atomicity :
    (∀ (env : Env) (fuel mode : Nat) (s : St) (e : String) (s1 : St),
      writeFull fuel mode env s = (.error e, s1) → s1.epd = s.epd) ∧
    (∀ (env : Env) (fuel mode : Nat) (s : St) (prev : Img) (e : String) (s1 : St),
      s.epd.prev_frame = some prev →
      writePartial fuel mode env s = (.error e, s1) →
      s1.epd.prev_frame = some s.epd.frame_buf) := by
  constructor
  · intro env fuel mode s e s1 h
    exact err_writeFull fuel mode env s e s1 h
  · intro env fuel mode s prev e s1 h h2
    rw [writePartial_front fuel mode env s prev h] at h2
    rcases hdb : (if mode = DisplayModes.DU then
        _compute_diff_box (imgDifference prev s.epd.frame_buf) 4
      else
        _compute_diff_box (imgAdd s.epd.gray_changes (imgDifference prev s.epd.frame_buf)) 4)
      with _ | ⟨x0, y0, x1, y1⟩
    · rw [hdb] at h2
      simp [run_epdm_pure] at h2
    · rw [hdb] at h2
      revert h2
      generalize hS : ({ s with epd :=
        { s.epd with
          gray_changes := if mode = DisplayModes.DU then
              imgAdd s.epd.gray_changes (imgDifference prev s.epd.frame_buf)
            else
              imgPaste (imgAdd s.epd.gray_changes (imgDifference prev s.epd.frame_buf)) 0
                (0, 0, (imgAdd s.epd.gray_changes (imgDifference prev s.epd.frame_buf)).width,
                  (imgAdd s.epd.gray_changes (imgDifference prev s.epd.frame_buf)).height)
          prev_frame := some s.epd.frame_buf } } : St) = S2
      intro h2
      have h3 : (do
          wait_display_ready fuel
          packed_pixel_write EndianTypes.LITTLE PixelModes.M_4BPP Rotate.NONE
            (some (x0, y0)) (some (x1 - x0, y1 - y0)) (mode = DisplayModes.DU)
          display_area (x0, y0) (x1 - x0, y1 - y0) mode : EpdM Unit) env S2 =
          (.error e, s1) := h2
      have hp : PreservesEpd (do
          wait_display_ready fuel
          packed_pixel_write EndianTypes.LITTLE PixelModes.M_4BPP Rotate.NONE
            (some (x0, y0)) (some (x1 - x0, y1 - y0)) (mode = DisplayModes.DU)
          display_area (x0, y0) (x1 - x0, y1 - y0) mode : EpdM Unit) :=
        preserves_bind (preserves_wait_display_ready _) (fun _ =>
          preserves_bind (preserves_packed_pixel_write _ _ _ _ _ _) (fun _ =>
            preserves_display_area _ _ _))
      have hcl := hp env S2
      rw [h3] at hcl
      rw [hcl, ← hS]

/-- An environment in which every primitive bus operation faults. -/
def envAllFault : Env := ⟨fun _ => true, fun _ => 0⟩

theorem run_spiWrite_fault (p : Nat) (d : List Nat) (s : St) :
    spiWrite p d envAllFault s = (.error "SPI bus error", s) := rfl

/-- A 4 by 4 all-white previous frame for the C3 artifacts. -/
def c3prev : Img := ⟨4, 4, [255,255,255,255, 255,255,255,255, 255,255,255,255, 255,255,255,255]⟩

/-- A 4 by 4 frame with one changed pixel for the C3 artifacts. -/
def c3frame : Img := ⟨4, 4, [255,255,255,255, 255,255,255,255, 255,255,255,255, 255,255,255,0]⟩

/-- A driver state with a pending change for the C3 artifacts. -/
def c3s : St := ⟨⟨4, 4, 0, c3frame, some c3prev, ⟨4, 4, List.replicate 16 0⟩⟩, 0, 0, []⟩

/-- C3 counterexample: with every bus operation faulting, writePartial on a
state whose frame buffer differs from the previous frame raises a bus error
during the transmit, yet afterwards PreviousFrame equals the frame buffer
and the driver state differs from the state before the call. -/
theorem C3_counterexample :
    c3s.epd.prev_frame = some c3prev ∧
    (writePartial 1 DisplayModes.GC16 envAllFault c3s).1 = .error "SPI bus error" ∧
    ((writePartial 1 DisplayModes.GC16 envAllFault c3s).2).epd.prev_frame =
      some c3s.epd.frame_buf ∧
    c3s.epd.prev_frame ≠ some c3s.epd.frame_buf ∧
    ((writePartial 1 DisplayModes.GC16 envAllFault c3s).2).epd ≠ c3s.epd := by
  have hpre := writePartial_front 1 DisplayModes.GC16 envAllFault c3s c3prev rfl
  have hdb : (if DisplayModes.GC16 = DisplayModes.DU then
      _compute_diff_box (imgDifference c3prev c3s.epd.frame_buf) 4
    else
      _compute_diff_box (imgAdd c3s.epd.gray_changes (imgDifference c3prev c3s.epd.frame_buf)) 4)
      = some (0, 0, 8, 8) := by decide
  rw [hpre, hdb]
  refine ⟨rfl, ?_, ?_, by decide, ?_⟩
  · simp [wait_display_ready, read_register, write_cmd, write_data, read_data, read_int,
      run_bind, run_pure, run_epdm_pure, run_throw, run_getEpd, run_modifyEpd, run_ite,
      run_spiWrite_fault, forM_nil, forM_cons]
  · simp [wait_display_ready, read_register, write_cmd, write_data, read_data, read_int,
      run_bind, run_pure, run_epdm_pure, run_throw, run_getEpd, run_modifyEpd, run_ite,
      run_spiWrite_fault, forM_nil, forM_cons]
  · simp [wait_display_ready, read_register, write_cmd, write_data, read_data, read_int,
      run_bind, run_pure, run_epdm_pure, run_throw, run_getEpd, run_modifyEpd, run_ite,
      run_spiWrite_fault, forM_nil, forM_cons, c3s, c3frame, c3prev]

/-- Witness for the C3 amended theorem at a concrete faulting run. -/
theorem C3_witness :
    c3s.epd.prev_frame = some c3prev ∧
    ((writePartial 1 DisplayModes.GC16 envAllFault c3s).2).epd.prev_frame =
      some c3s.epd.frame_buf := by
  have h1 : (writePartial 1 DisplayModes.GC16 envAllFault c3s).1 = .error "SPI bus error" := by
    have hpre := writePartial_front 1 DisplayModes.GC16 envAllFault c3s c3prev rfl
    have hdb : (if DisplayModes.GC16 = DisplayModes.DU then
        _compute_diff_box (imgDifference c3prev c3s.epd.frame_buf) 4
      else
        _compute_diff_box (imgAdd c3s.epd.gray_changes (imgDifference c3prev c3s.epd.frame_buf)) 4)
        = some (0, 0, 8, 8) := by decide
    rw [hpre, hdb]
    simp [wait_display_ready, read_register, write_cmd, write_data, read_data, read_int,
      run_bind, run_pure, run_epdm_pure, run_throw, run_getEpd, run_modifyEpd, run_ite,
      run_spiWrite_fault, forM_nil, forM_cons]
  have hrun : writePartial 1 DisplayModes.GC16 envAllFault c3s =
      (.error "SPI bus error", (writePartial 1 DisplayModes.GC16 envAllFault c3s).2) := by
    rw [← h1]
  exact ⟨rfl, C3_atomicity.2 envAllFault 1 DisplayModes.GC16 c3s c3prev "SPI bus error" _ rfl hrun⟩
